import Mathlib

/-!
Verification of the Trivion browser clients against their specification.

The definitions below are shallow embeddings of the JavaScript client code:
  * `src/unnamed/part_000`  - the player client speaking raw WebSocket frames
    (it owns the `lamport` logical clock and `atualizarLamport`);
  * `src/unnamed/part_001`  - the admin client speaking raw WebSocket frames;
  * `src/frontend/js/app.js`  - the player client speaking Socket.IO
    (it has no logical clock and sends `Date.now()` as timestamp);
  * `src/frontend/js/admin.js` and `src/SOCKET.IO`  - admin panels with the
    answer-distribution rendering and the bounded event log.

DOM writes (class toggles, innerHTML) are outside the model; what is kept is
every state field the functions read or write, the frames they emit, and the
control flow of the functions themselves.
-/

namespace Trivion

/-- Outbound frames emitted by the clients that matter for the claims. -/
inductive OutMsg where
  | responder (resposta : Nat) (timestamp : Int)
  | pongHeartbeat
  | entrarSala (codigo nome : String) (senha : Option String)
  deriving Repr, DecidableEq

/-- Public member view as the clients store it in `state.jogador` and
`state.jogadores`. -/
structure Jogador where
  id : String
  nome : String
  pontuacao : Int
  em_espera : Bool
  deriving Repr, DecidableEq

/-- A question as delivered in a `pergunta` frame. -/
structure Pergunta where
  texto : String
  opcoes : List String
  tempo : Nat
  deriving Repr, DecidableEq

/-- The mutable state of the WebSocket player client (src/unnamed/part_000):
the fields of its global `state` object that the embedded functions touch,
plus the module-level `lamport` counter.  `estado` is the current screen id
set by `showScreen` (line 117 sets `state.estado = id`). -/
structure ClientState where
  sala : Option String
  jogador : Option Jogador
  estado : String
  pergunta : Option Pergunta
  jogadores : List Jogador
  ultimaResposta : Option Nat
  tempoRespostaMs : Option Int
  pontuacaoAntes : Int
  questionStartTime : Option Nat
  aguardandoProxima : Bool
  lamport : Int
  deriving Repr, DecidableEq

/-- `atualizarLamport` (src/unnamed/part_000 lines 50-57).  The JavaScript
mutates the module variable `lamport` and returns it; here the first
component is the stored value and the second the returned value.  A numeric
argument is `some t`; calling with no argument (or a non-number) is `none`. -/
def atualizarLamport (lamport : Int) (recebido : Option Int) : Int × Int :=
  match recebido with
  | some t => (max lamport t + 1, max lamport t + 1)
  | none => (lamport + 1, lamport + 1)

/-- The truthiness test `state.jogador?.em_espera` used by the part_000 and
app.js clients: `undefined` (no player) is falsy. -/
def emEsperaCheck (jogador : Option Jogador) : Bool :=
  match jogador with
  | some j => j.em_espera
  | none => false

/-- Dispatch logic of `ws.onmessage` in the WebSocket player client
(src/unnamed/part_000 lines 83-97), after the JSON parse succeeded: a
`ping_heartbeat` frame is answered with `pong_heartbeat` and returns before
the handler table is consulted; any other tag runs its registered handler
when one exists.  `registrados` is the handler table keyed by tag; the
result records the emitted frames and which handler (if any) ran. -/
def wsDispatchCliente (registrados : String → Bool) (tipo : String) :
    List OutMsg × Option String :=
  if tipo = "ping_heartbeat" then ([OutMsg.pongHeartbeat], none)
  else if registrados tipo then ([], some tipo)
  else ([], none)

/-- Dispatch logic of `ws.onmessage` in the WebSocket admin client
(src/unnamed/part_001 lines 41-55); textually the same guard as in the
player client. -/
def wsDispatchAdmin (registrados : String → Bool) (tipo : String) :
    List OutMsg × Option String :=
  if tipo = "ping_heartbeat" then ([OutMsg.pongHeartbeat], none)
  else if registrados tipo then ([], some tipo)
  else ([], none)

/-- The lookup `(state.jogadores.find(j => j.id === state.jogador?.id)?.pontuacao) || 0`
used to remember the score before a question (part_000 lines 286 and 381). -/
def pontuacaoDe (st : ClientState) : Int :=
  match st.jogador with
  | none => 0
  | some jg => ((st.jogadores.find? (fun j => j.id == jg.id)).map Jogador.pontuacao).getD 0

/-- The `pergunta` event handler of the WebSocket player client
(src/unnamed/part_000 lines 371-384).  A waiting member only switches to the
espera screen; otherwise the handler stores the question, merges a numeric
`timestamp` into the lamport clock via `atualizarLamport`, clears the answer
bookkeeping, and shows the question screen.  `renderQuestion` calls
`startQuestionTimer`, which records `Date.now()` in
`state.questionStartTime` (line 199); that instant is the `now` argument. -/
def onPergunta (st : ClientState) (p : Pergunta) (timestamp : Option Int)
    (now : Nat) : ClientState :=
  if emEsperaCheck st.jogador then { st with estado := "espera" }
  else
    let lam := match timestamp with
      | some t => (atualizarLamport st.lamport (some t)).1
      | none => st.lamport
    { st with
        aguardandoProxima := false
        pergunta := some p
        lamport := lam
        ultimaResposta := none
        tempoRespostaMs := none
        pontuacaoAntes := pontuacaoDe st
        questionStartTime := some now
        estado := "question" }

/-- The `answer` function of the WebSocket player client (src/unnamed/part_000
lines 587-598).  It returns immediately unless the current screen is
`question` and the member is not waiting; otherwise it records the chosen
index and the elapsed time, ticks the lamport clock, emits one `responder`
frame with the ticked value, and switches to the waiting screen.  `now` is
the value of `Date.now()` during the call. -/
def answer (st : ClientState) (index : Nat) (now : Nat) :
    ClientState × List OutMsg :=
  if st.estado ≠ "question" then (st, [])
  else if emEsperaCheck st.jogador then (st, [])
  else
    let tempoMs := st.questionStartTime.map (fun t0 => (now : Int) - (t0 : Int))
    let ts := (atualizarLamport st.lamport none).2
    ({ st with
        ultimaResposta := some index
        tempoRespostaMs := tempoMs
        lamport := (atualizarLamport st.lamport none).1
        estado := "waiting" },
     [OutMsg.responder index ts])

/-- A sequence of calls to `answer`, each given as (chosen index, Date.now()
at the call); the emitted frames are concatenated in call order. -/
def runAnswers (st : ClientState) (calls : List (Nat × Nat)) :
    ClientState × List OutMsg :=
  match calls with
  | [] => (st, [])
  | (idx, now) :: rest =>
    let r1 := answer st idx now
    let r2 := runAnswers r1.1 rest
    (r2.1, r1.2 ++ r2.2)

/-- Count of `responder` frames in an emission list. -/
def countResponder (l : List OutMsg) : Nat :=
  (l.filter (fun m => match m with | OutMsg.responder _ _ => true | _ => false)).length

/-- The mutable state of the Socket.IO player client
(src/frontend/js/app.js): the fields its `answer` function and `pergunta`
handler touch.  This client keeps no logical clock at all. -/
structure AppClientState where
  estado : String
  jogador : Option Jogador
  ultimaResposta : Option Nat
  tempoRespostaMs : Option Int
  questionStartTime : Option Nat
  deriving Repr, DecidableEq

/-- The `pergunta` event handler of the Socket.IO player client
(src/frontend/js/app.js lines 332-344).  Its parameter destructuring reads
only `pergunta`, `numero` and `total`; a `timestamp` field in the payload is
ignored, so the resulting state does not depend on the `timestamp`
argument. -/
def onPerguntaApp (st : AppClientState) (_timestamp : Option Int) (now : Nat) :
    AppClientState :=
  if emEsperaCheck st.jogador then { st with estado := "espera" }
  else
    { st with
        ultimaResposta := none
        tempoRespostaMs := none
        questionStartTime := some now
        estado := "question" }

/-- The `answer` function of the Socket.IO player client
(src/frontend/js/app.js lines 478-488).  Under the same guards as the
WebSocket client it emits one `responder` frame, but its timestamp field is
`Date.now()` - the wall clock `now` - since this client has no logical
clock. -/
def answerApp (st : AppClientState) (index : Nat) (now : Nat) :
    AppClientState × List OutMsg :=
  if st.estado ≠ "question" then (st, [])
  else if emEsperaCheck st.jogador then (st, [])
  else
    ({ st with
        ultimaResposta := some index
        tempoRespostaMs := st.questionStartTime.map (fun t0 => (now : Int) - (t0 : Int))
        estado := "waiting" },
     [OutMsg.responder index (now : Int)])

/-- JavaScript truthiness of `state.sala`: null and the empty string are
falsy. -/
def salaTruthy : Option String → Bool
  | some s => s != ""
  | none => false

/-- The `senha: state.senha || undefined` coercion in the join payload. -/
def senhaOuNada : Option String → Option String
  | some s => if s == "" then none else some s
  | none => none

/-- The JavaScript String.prototype.trim call: whitespace removed from both
ends.  Defined structurally over the character list so that proofs can
evaluate it on concrete names. -/
def stringTrim (s : String) : String :=
  ⟨((s.data.dropWhile Char.isWhitespace).reverse.dropWhile Char.isWhitespace).reverse⟩

/-- `joinSala` (src/frontend/js/app.js lines 463-476 and src/unnamed/part_000
lines 556-569, identical guard logic).  `rawName` is the raw value of the
name input field; the function trims it and, when the trimmed name and the
stored room code are both truthy, emits one `entrar_sala` frame; otherwise
it emits nothing and shows the validation error text.  The result pairs the
emitted frames with the displayed error, if any. -/
def joinSala (rawName : String) (sala : Option String) (senha : Option String) :
    List OutMsg × Option String :=
  let nome := stringTrim rawName
  if nome != "" && salaTruthy sala then
    ([OutMsg.entrarSala (sala.getD "") nome (senhaOuNada senha)], none)
  else
    ([], some "Informe o seu nome.")

/-- The total used by the distribution rendering
(src/frontend/js/admin.js line 48 and src/SOCKET.IO line 371):
`reduce((a, b) => a + b, 0) || 1`, so a zero sum becomes 1. -/
def distTotal (estatisticas : List Nat) : Nat :=
  let s := estatisticas.foldl (· + ·) 0
  if s = 0 then 1 else s

/-- The bar height percentage `(v / total) * 100` computed by
`renderDistribuicao` and `atualizarDistribuicao`. -/
def barHeight (v total : Nat) : Rat := (v : Rat) / (total : Rat) * 100

/-- A JavaScript value as far as `loadReconnectInfo` is concerned. -/
inductive JsVal where
  | null
  | valor (descricao : String)
  deriving Repr, DecidableEq

/-- Outcome of a call to JSON.parse: a value, or a thrown SyntaxError. -/
inductive ParseOutcome where
  | ok (v : JsVal)
  | thrown (mensagem : String)
  deriving Repr, DecidableEq

/-- `loadReconnectInfo` (src/unnamed/part_000 lines 163-169 and
src/frontend/js/app.js lines 88-94): `JSON.parse(localStorage.getItem(...)
|| 'null')` inside try/catch, returning null on a parse error.  JSON.parse
is modelled as an oracle `parse` that may return any value or throw;
`stored` is the current content of the trivion_reconnect key (`none` when
absent, in which case the parsed text is the literal "null"). -/
def loadReconnectInfo (parse : String → ParseOutcome) (stored : Option String) :
    JsVal :=
  match parse (stored.getD "null") with
  | ParseOutcome.ok v => v
  | ParseOutcome.thrown _ => JsVal.null

/-- The trimming loop of `adicionarLog` (src/SOCKET.IO lines 402-404):
`while (registro.children.length > 50) removeChild(lastChild)`.  The log is
the list of entries, newest first, and removing the last child removes the
oldest entry. -/
def aparar50 (l : List String) : List String :=
  if _h : l.length > 50 then aparar50 l.dropLast else l
termination_by l.length
decreasing_by
  simp only [List.length_dropLast]
  omega

/-- `adicionarLog` (src/SOCKET.IO lines 390-405): the new entry is inserted
before the first child (prepended), then oldest entries are removed while
the count exceeds 50. -/
def adicionarLog (registro : List String) (entrada : String) : List String :=
  aparar50 (entrada :: registro)

/-- Modelled from the spec: the scoring function lives in backend/jogo.py
(`GerenciadorJogo.processar_resposta`), which is not under src/.  Spec 4.6:
"Correct answer awards 1000 x (1 - 0.5 x elapsed/deadline) rounded to the
nearest integer, with a floor of 0.  Incorrect and timeout award 0."
`decorrido` is the server-measured elapsed time and `prazo` the question
deadline, in the same unit. -/
def pontosPorResposta (correta tempoEsgotado : Bool) (decorrido prazo : Nat) :
    Int :=
  if tempoEsgotado then 0
  else if correta then
    max 0 (round ((1000 : Rat) * (1 - (1 / 2) * ((decorrido : Rat) / (prazo : Rat)))))
  else 0

/-- A concrete part_000 client state sitting on the question screen, used by
witnesses. -/
def stQuestion : ClientState :=
  { sala := some "ABC123"
    jogador := some { id := "p1", nome := "Alice", pontuacao := 0, em_espera := false }
    estado := "question"
    pergunta := none
    jogadores := []
    ultimaResposta := none
    tempoRespostaMs := none
    pontuacaoAntes := 0
    questionStartTime := some 100
    aguardandoProxima := false
    lamport := 7 }

end Trivion

namespace Trivion

/-- C1: for every current counter value c of the per-room logical clock, a
call to `atualizarLamport` with a numeric received timestamp t stores and
returns max(c, t) + 1 (the observe operation), and a call with no numeric
timestamp stores and returns c + 1 (the tick operation). -/
theorem atualizarLamport_tick_observe (c t : Int) :
    atualizarLamport c (some t) = (max c t + 1, max c t + 1) ∧
    atualizarLamport c none = (c + 1, c + 1) :=
  ⟨rfl, rfl⟩

/-- C6: for every inbound frame whose tag is ping_heartbeat, both the player
client and the admin client reply with a pong_heartbeat frame and dispatch
no handler for that frame, whatever handlers are registered. -/
theorem ping_heartbeat_reply (regCliente regAdmin : String → Bool) :
    wsDispatchCliente regCliente "ping_heartbeat" = ([OutMsg.pongHeartbeat], none) ∧
    wsDispatchAdmin regAdmin "ping_heartbeat" = ([OutMsg.pongHeartbeat], none) := by
  constructor <;> simp [wsDispatchCliente, wsDispatchAdmin]

/-- Helper: when either guard of `answer` fails, the call is a no-op. -/
theorem answer_noop (st : ClientState) (idx now : Nat)
    (h : st.estado ≠ "question" ∨ emEsperaCheck st.jogador = true) :
    answer st idx now = (st, []) := by
  unfold answer
  rcases h with h | h
  · simp [h]
  · by_cases h1 : st.estado = "question" <;> simp [h1, h]

/-- Helper: when both guards of `answer` pass, the call emits exactly one
responder frame carrying the ticked lamport clock and moves to the waiting
screen. -/
theorem answer_emit (st : ClientState) (idx now : Nat)
    (h1 : st.estado = "question") (h2 : emEsperaCheck st.jogador = false) :
    (answer st idx now).2 = [OutMsg.responder idx (st.lamport + 1)] ∧
    (answer st idx now).1.estado = "waiting" ∧
    (answer st idx now).1.jogador = st.jogador := by
  unfold answer atualizarLamport
  simp [h1, h2]

/-- Helper: from a state that no longer shows the question screen, a run of
answer calls emits nothing and changes nothing. -/
theorem runAnswers_noop (st : ClientState) (calls : List (Nat × Nat))
    (h : st.estado ≠ "question" ∨ emEsperaCheck st.jogador = true) :
    runAnswers st calls = (st, []) := by
  induction calls with
  | nil => rfl
  | cons c rest ih =>
    rw [runAnswers, answer_noop st c.1 c.2 h]
    simpa using ih

/-- C3: answer(index) emits a responder frame iff the phase state is
question and the waiting check is false; when either condition fails the
call emits nothing and leaves the client state unchanged. -/
theorem answer_emits_iff (st : ClientState) (idx now : Nat) :
    ((answer st idx now).2 ≠ [] ↔
      st.estado = "question" ∧ emEsperaCheck st.jogador = false) ∧
    (¬(st.estado = "question" ∧ emEsperaCheck st.jogador = false) →
      answer st idx now = (st, [])) := by
  by_cases h1 : st.estado = "question"
  · by_cases h2 : emEsperaCheck st.jogador
    · have := answer_noop st idx now (Or.inr h2)
      constructor
      · rw [this]; simp [h1, h2]
      · intro _; exact this
    · have h2f : emEsperaCheck st.jogador = false := by
        simpa using h2
      have := answer_emit st idx now h1 h2f
      constructor
      · rw [this.1]; simp [h1, h2f]
      · intro hc; exact absurd ⟨h1, h2f⟩ hc
  · have := answer_noop st idx now (Or.inl h1)
    constructor
    · rw [this]; simp [h1]
    · intro _; exact this

/-- C3 witness: on a concrete question-screen state the frame is emitted,
and on the lobby screen the call is a no-op. -/
theorem answer_emits_iff_witness :
    (answer stQuestion 1 250).2 ≠ [] ∧
    answer { stQuestion with estado := "lobby" } 1 250 =
      ({ stQuestion with estado := "lobby" }, []) :=
  ⟨(answer_emits_iff stQuestion 1 250).1.mpr ⟨rfl, rfl⟩,
   (answer_emits_iff { stQuestion with estado := "lobby" } 1 250).2
     (by simp [stQuestion])⟩

/-- C4: from any client state, a sequence of answer calls emits at most one
responder frame; after any emitting call the client is on the waiting
screen, no longer on the question screen.  Since only a later pergunta
event puts the client back on the question screen, between two consecutive
pergunta events at most one responder frame is emitted. -/
theorem at_most_one_responder :
    (∀ (st : ClientState) (calls : List (Nat × Nat)),
      countResponder (runAnswers st calls).2 ≤ 1) ∧
    (∀ (st : ClientState) (idx now : Nat), (answer st idx now).2 ≠ [] →
      (answer st idx now).1.estado = "waiting") := by
  constructor
  · intro st calls
    induction calls generalizing st with
    | nil => simp [runAnswers, countResponder]
    | cons c rest ih =>
      rw [runAnswers]
      by_cases h1 : st.estado = "question"
      · by_cases h2 : emEsperaCheck st.jogador
        · rw [answer_noop st c.1 c.2 (Or.inr h2)]
          simpa using ih st
        · have h2f : emEsperaCheck st.jogador = false := by simpa using h2
          have he := answer_emit st c.1 c.2 h1 h2f
          rw [runAnswers_noop (answer st c.1 c.2).1 rest
              (Or.inl (by rw [he.2.1]; decide))]
          rw [he.1]
          simp [countResponder]
      · rw [answer_noop st c.1 c.2 (Or.inl h1)]
        simpa using ih st
  · intro st idx now hne
    by_cases h1 : st.estado = "question"
    · by_cases h2 : emEsperaCheck st.jogador
      · exact absurd (congrArg Prod.snd (answer_noop st idx now (Or.inr h2))) hne
      · exact (answer_emit st idx now h1 (by simpa using h2)).2.1
    · exact absurd (congrArg Prod.snd (answer_noop st idx now (Or.inl h1))) hne

/-- C4 witness: two answer calls in a row emit exactly one frame, and the
emitting call lands on the waiting screen. -/
theorem at_most_one_responder_witness :
    countResponder (runAnswers stQuestion [(1, 250), (2, 300)]).2 ≤ 1 ∧
    (answer stQuestion 1 250).1.estado = "waiting" :=
  ⟨at_most_one_responder.1 stQuestion [(1, 250), (2, 300)],
   at_most_one_responder.2 stQuestion 1 250 (by decide)⟩

/-- C2 counterexample: the Socket.IO player client (frontend/js/app.js) does
not echo the most recent logical timestamp it saw.  Concretely: the client
receives a pergunta frame carrying logical timestamp 5 (and its handler
ignores it: the resulting state is the same as for timestamp 41), then
submits at wall time Date.now() = 999 and emits timestamp 999, not 5. -/
theorem responder_timestamp_wall_clock_cex :
    (answerApp
        (onPerguntaApp
          { estado := "lobby"
            jogador := some { id := "p1", nome := "Alice", pontuacao := 0, em_espera := false }
            ultimaResposta := none
            tempoRespostaMs := none
            questionStartTime := none } (some 5) 100) 0 999).2 =
      [OutMsg.responder 0 999] ∧
    onPerguntaApp
        { estado := "lobby"
          jogador := some { id := "p1", nome := "Alice", pontuacao := 0, em_espera := false }
          ultimaResposta := none
          tempoRespostaMs := none
          questionStartTime := none } (some 5) 100 =
      onPerguntaApp
        { estado := "lobby"
          jogador := some { id := "p1", nome := "Alice", pontuacao := 0, em_espera := false }
          ultimaResposta := none
          tempoRespostaMs := none
          questionStartTime := none } (some 41) 100 ∧
    (999 : Int) ≠ 5 := by
  refine ⟨?_, ?_, ?_⟩ <;> decide

/-- C2 amended: the WebSocket client (src/unnamed/part_000) does not echo
the last observed timestamp either - at submit time it ticks its lamport
clock once and emits the ticked value, which is strictly greater than the
question timestamp it had observed; the Socket.IO client
(src/frontend/js/app.js) emits the wall clock Date.now() as timestamp. -/
theorem responder_timestamp_amended
    (st : ClientState) (stA : AppClientState) (p : Pergunta) (t : Int)
    (ts : Option Int) (now now2 nowA nowA2 idx idxA : Nat)
    (h : emEsperaCheck st.jogador = false)
    (hA : emEsperaCheck stA.jogador = false) :
    ((answer (onPergunta st p (some t) now) idx now2).2 =
        [OutMsg.responder idx ((onPergunta st p (some t) now).lamport + 1)] ∧
      t < (onPergunta st p (some t) now).lamport + 1) ∧
    (answerApp (onPerguntaApp stA ts nowA) idxA nowA2).2 =
      [OutMsg.responder idxA (nowA2 : Int)] := by
  have hq : (onPergunta st p (some t) now).estado = "question" := by
    unfold onPergunta; simp [h]
  have hj : (onPergunta st p (some t) now).jogador = st.jogador := by
    unfold onPergunta; simp [h]
  have hlam : (onPergunta st p (some t) now).lamport = max st.lamport t + 1 := by
    unfold onPergunta atualizarLamport; simp [h]
  refine ⟨⟨?_, ?_⟩, ?_⟩
  · exact (answer_emit _ idx now2 hq (by rw [hj]; exact h)).1
  · have hmax : t ≤ max st.lamport t := le_max_right _ _
    rw [hlam]; omega
  · have hqA : (onPerguntaApp stA ts nowA).estado = "question" := by
      unfold onPerguntaApp; simp [hA]
    have hjA : (onPerguntaApp stA ts nowA).jogador = stA.jogador := by
      unfold onPerguntaApp; simp [hA]
    unfold answerApp
    simp [hqA, hjA, hA]

/-- C2 amended witness: concrete run of both clients. -/
theorem responder_timestamp_amended_witness :
    (answer (onPergunta { stQuestion with estado := "lobby" }
        { texto := "2+2", opcoes := ["3", "4", "5", "6"], tempo := 10 }
        (some 5) 100) 1 250).2 =
      [OutMsg.responder 1 ((onPergunta { stQuestion with estado := "lobby" }
        { texto := "2+2", opcoes := ["3", "4", "5", "6"], tempo := 10 }
        (some 5) 100).lamport + 1)] :=
  (responder_timestamp_amended { stQuestion with estado := "lobby" }
    { estado := "lobby", jogador := none, ultimaResposta := none,
      tempoRespostaMs := none, questionStartTime := none }
    { texto := "2+2", opcoes := ["3", "4", "5", "6"], tempo := 10 }
    5 none 100 250 100 250 1 1 (by decide) (by decide)).1.1

/-- C7 counterexample: joinSala performs no length-20 validation.  With a
trimmed display name of length 21 and a room code set, it emits the
entrar_sala frame and shows no validation error, contradicting the claim
that a name of length 21 is rejected with no frame emitted. -/
theorem joinSala_length21_sent_cex :
    (stringTrim "AAAAAAAAAAAAAAAAAAAAA").length = 21 ∧
    joinSala "AAAAAAAAAAAAAAAAAAAAA" (some "ABC123") none =
      ([OutMsg.entrarSala "ABC123" "AAAAAAAAAAAAAAAAAAAAA" none], none) := by
  refine ⟨?_, ?_⟩ <;> decide

/-- C7 amended: joinSala emits an entrar_sala frame iff the trimmed name is
non-empty and a room code is set - in particular names of trimmed length 1,
20 and 21 are all sent - and an empty trimmed name is rejected with the
validation error and no frame; the 1-20 length bound is not enforced by
this client function. -/
theorem joinSala_emits_iff (rawName : String) (sala senha : Option String) :
    ((joinSala rawName sala senha).1 ≠ [] ↔
      stringTrim rawName ≠ "" ∧ salaTruthy sala = true) ∧
    (stringTrim rawName = "" →
      joinSala rawName sala senha = ([], some "Informe o seu nome.")) := by
  by_cases h1 : stringTrim rawName = ""
  · constructor
    · simp [joinSala, h1]
    · intro _; simp [joinSala, h1]
  · by_cases h2 : salaTruthy sala
    · constructor
      · simp [joinSala, h1, h2]
      · intro hc; exact absurd hc h1
    · constructor
      · simp [joinSala, h1, h2]
      · intro hc; exact absurd hc h1

/-- C7 amended witness: a 1-character name is sent, an all-whitespace name
is rejected with the validation error and no frame. -/
theorem joinSala_emits_iff_witness :
    (joinSala "A" (some "ABC123") none).1 ≠ [] ∧
    joinSala "   " (some "ABC123") none = ([], some "Informe o seu nome.") :=
  ⟨(joinSala_emits_iff "A" (some "ABC123") none).1.mpr (by decide),
   (joinSala_emits_iff "   " (some "ABC123") none).2 (by decide)⟩

/-- Helper: the rendering total is at least 1. -/
theorem distTotal_pos (estatisticas : List Nat) : 1 ≤ distTotal estatisticas := by
  by_cases h : estatisticas.foldl (· + ·) 0 = 0
  · simp [distTotal, h]
  · simp [distTotal, h]
    omega

/-- Helper: each of the four counts is at most the rendering total. -/
theorem le_distTotal4 (a b c d : Nat) :
    a ≤ distTotal [a, b, c, d] ∧ b ≤ distTotal [a, b, c, d] ∧
    c ≤ distTotal [a, b, c, d] ∧ d ≤ distTotal [a, b, c, d] := by
  have hd : distTotal [a, b, c, d] =
      if 0 + a + b + c + d = 0 then 1 else 0 + a + b + c + d := rfl
  rw [hd]
  split <;> omega

/-- Helper: a count bounded by a positive total yields a bar height between
0 and 100 percent. -/
theorem barHeight_bounds (v total : Nat) (h0 : 0 < total) (hv : v ≤ total) :
    0 ≤ barHeight v total ∧ barHeight v total ≤ 100 := by
  unfold barHeight
  have htot : (0 : Rat) < (total : Rat) := by exact_mod_cast h0
  constructor
  · positivity
  · have hvv : (v : Rat) ≤ (total : Rat) := by exact_mod_cast hv
    rw [div_mul_eq_mul_div, div_le_iff₀ htot]
    nlinarith

/-- C8: for every four-element answer-statistics array of counts, including
all zeros, the rendering total is at least 1 (so no division by zero
occurs) and each computed bar height is a percentage between 0 and 100. -/
theorem dist_heights_bounded (a b c d : Nat) :
    1 ≤ distTotal [a, b, c, d] ∧
    (0 ≤ barHeight a (distTotal [a, b, c, d]) ∧
      barHeight a (distTotal [a, b, c, d]) ≤ 100) ∧
    (0 ≤ barHeight b (distTotal [a, b, c, d]) ∧
      barHeight b (distTotal [a, b, c, d]) ≤ 100) ∧
    (0 ≤ barHeight c (distTotal [a, b, c, d]) ∧
      barHeight c (distTotal [a, b, c, d]) ≤ 100) ∧
    (0 ≤ barHeight d (distTotal [a, b, c, d]) ∧
      barHeight d (distTotal [a, b, c, d]) ≤ 100) := by
  have hpos := distTotal_pos [a, b, c, d]
  have hle := le_distTotal4 a b c d
  exact ⟨hpos,
    barHeight_bounds a _ hpos hle.1,
    barHeight_bounds b _ hpos hle.2.1,
    barHeight_bounds c _ hpos hle.2.2.1,
    barHeight_bounds d _ hpos hle.2.2.2⟩

/-- C9: whatever is stored under the trivion_reconnect key (absent, valid
JSON, or malformed text), loadReconnectInfo returns normally - the parsed
value when JSON.parse succeeds, and null when it throws; the thrown
exception never propagates out of the function. -/
theorem loadReconnectInfo_total (parse : String → ParseOutcome)
    (stored : Option String) :
    (∀ v, parse (stored.getD "null") = ParseOutcome.ok v →
      loadReconnectInfo parse stored = v) ∧
    (∀ e, parse (stored.getD "null") = ParseOutcome.thrown e →
      loadReconnectInfo parse stored = JsVal.null) := by
  constructor <;> intro x hx <;> simp [loadReconnectInfo, hx]

/-- C9 witness: a concrete parse oracle that throws on the stored garbage
yields null, and one that succeeds yields the parsed value. -/
theorem loadReconnectInfo_total_witness :
    loadReconnectInfo
      (fun s => if s == "lixo" then ParseOutcome.thrown "SyntaxError"
        else ParseOutcome.ok (JsVal.valor s)) (some "lixo") = JsVal.null ∧
    loadReconnectInfo
      (fun s => ParseOutcome.ok (JsVal.valor s)) none = JsVal.valor "null" :=
  ⟨(loadReconnectInfo_total _ (some "lixo")).2 "SyntaxError" (by decide),
   (loadReconnectInfo_total _ none).1 (JsVal.valor "null") (by decide)⟩

/-- Helper: the trimming loop keeps exactly the newest 50 entries. -/
theorem aparar50_eq_take (l : List String) : aparar50 l = l.take 50 := by
  have H : ∀ (n : Nat) (l : List String), l.length ≤ n → aparar50 l = l.take 50 := by
    intro n
    induction n with
    | zero =>
      intro l hl
      have hnil : l = [] := List.length_eq_zero.mp (by omega)
      subst hnil
      rw [aparar50]
      simp
    | succ n ih =>
      intro l hl
      rw [aparar50]
      split
      · next h =>
        rw [ih l.dropLast (by simp only [List.length_dropLast]; omega)]
        rw [List.dropLast_eq_take, List.take_take]
        congr 1
        omega
      · next h =>
        rw [List.take_of_length_le (by omega)]
  exact H l.length l le_rfl

/-- C10: after every call to adicionarLog the log holds at most 50 entries;
the call prepends the new entry and then keeps only the newest 50, so the
bound is preserved from any starting log. -/
theorem adicionarLog_bounded (registro : List String) (entrada : String) :
    (adicionarLog registro entrada).length ≤ 50 ∧
    adicionarLog registro entrada = (entrada :: registro).take 50 := by
  have h := aparar50_eq_take (entrada :: registro)
  refine ⟨?_, h⟩
  rw [adicionarLog, h]
  simp only [List.length_take]
  omega

/-- C5 (modelled from the spec, the scoring code being outside src/): with a
positive deadline, a correct answer at elapsed 0 awards 1000 points and at
elapsed = deadline awards 500; every incorrect or timeout answer awards 0;
and the floor keeps every award non-negative. -/
theorem pontos_boundary (prazo : Nat) (h : 0 < prazo) :
    pontosPorResposta true false 0 prazo = 1000 ∧
    pontosPorResposta true false prazo prazo = 500 ∧
    (∀ e, pontosPorResposta false false e prazo = 0) ∧
    (∀ e, pontosPorResposta true true e prazo = 0) ∧
    (∀ e, pontosPorResposta false true e prazo = 0) ∧
    (∀ e, 0 ≤ pontosPorResposta true false e prazo) := by
  have hp : ((prazo : Nat) : Rat) ≠ 0 := by
    exact_mod_cast Nat.pos_iff_ne_zero.mp h
  refine ⟨?_, ?_, fun e => rfl, fun e => rfl, fun e => rfl, fun e => ?_⟩
  · unfold pontosPorResposta
    norm_num [round_eq]
  · unfold pontosPorResposta
    rw [div_self hp]
    norm_num [round_eq]
  · unfold pontosPorResposta
    simp

/-- C5 witness: the boundary values at the default 20-second deadline. -/
theorem pontos_boundary_witness :
    pontosPorResposta true false 0 20 = 1000 ∧
    pontosPorResposta true false 20 20 = 500 ∧
    pontosPorResposta false false 7 20 = 0 ∧
    pontosPorResposta true true 25 20 = 0 :=
  ⟨(pontos_boundary 20 (by norm_num)).1,
   (pontos_boundary 20 (by norm_num)).2.1,
   (pontos_boundary 20 (by norm_num)).2.2.1 7,
   (pontos_boundary 20 (by norm_num)).2.2.2.1 25⟩

end Trivion
